import Mathlib

/-!
# Eco-Coach AI — waste-classification and CO2-estimation core

Shallow embedding of the core analysis pipeline of `src/app.py`:
the CO2 impact table (`CO2_IMPACT_MAP`), the heuristic fallback classifier
(`get_mock_ai_response`), the remote-reply estimator (lines 152–166 of
`get_ai_waste_analysis`), the fenced-content stripping of the reply text
(lines 144–148), and the facade `get_ai_waste_analysis` itself.

Modelling conventions:
- Python strings are `List Char`; `s.lower()` is `pyLower` (ASCII case map,
  which is what the repository's fixed vocabulary exercises);
  the Python substring test `a in b` is `strIn`.
- Python floats are `ℚ`; `round(x, 2)` is `pyRound2` (round half to even,
  matching the documented semantics of Python's `round`).
- A JSON value decoded by `json.loads` is a `JVal`; a Python statement that
  raises makes the embedded function return `none`.
- The outcome of the `try` block (the network call, HTTP status check,
  response-shape access and JSON parse) is abstracted as a `RemoteOutcome`:
  either some exception was raised inside the block (`fetchError`) or a
  decoded JSON value `ai_data` was produced (`fetched`).
-/

/-- Python strings, as lists of characters. -/
abbrev Str := List Char

/-- ASCII lowercasing of one character, as Python's `str.lower` acts on the
ASCII range (the only range the repository's keyword vocabulary uses). -/
def pyLowerChar (c : Char) : Char :=
  if 'A' ≤ c ∧ c ≤ 'Z' then Char.ofNat (c.toNat + 32) else c

/-- Python's `s.lower()`. -/
def pyLower (s : Str) : Str := s.map pyLowerChar

/-- Python's substring containment test `needle in hay`. -/
def strIn (needle hay : Str) : Bool := decide (needle <:+: hay)

/-- Python's `any(w in hay for w in ws)`. -/
def anyIn (ws : List Str) (hay : Str) : Bool := ws.any (fun w => strIn w hay)

/-- Python's `s.split(sep)` for a one-character separator: splits at every
occurrence of `sep`, keeping empty chunks (`pySplit sep [] = [[]]`). -/
def pySplit (sep : Char) : Str → List Str
  | [] => [[]]
  | c :: cs =>
    if c = sep then [] :: pySplit sep cs
    else
      match pySplit sep cs with
      | [] => [[c]]
      | l :: ls => (c :: l) :: ls

/-- Python's `sep.join(chunks)` for a one-character separator. -/
def pyJoin (sep : Char) : List Str → Str
  | [] => []
  | [l] => l
  | l :: ls => l ++ sep :: pyJoin sep ls

/-- Python's `round(x, 2)`: round `100 * x` to the nearest integer, ties to
even, and divide by 100. -/
def pyRound2 (x : ℚ) : ℚ :=
  let y := x * 100
  let n := ⌊y⌋
  let r := y - (n : ℚ)
  let k := if r > 1/2 then n + 1 else if r < 1/2 then n else if Even n then n else n + 1
  (k : ℚ) / 100

/-- A JSON value, as decoded by Python's `json.loads`. -/
inductive JVal where
  | jstr : Str → JVal
  | jnum : ℚ → JVal
  | jbool : Bool → JVal
  | jnull : JVal
  | jarr : List JVal → JVal
  | jobj : List (Str × JVal) → JVal

/-- Python's `d.get(key)` on a decoded JSON object (keys are unique, so a
first-match scan of the field list is the dictionary lookup). -/
def objGet (o : List (Str × JVal)) (k : Str) : Option JVal :=
  (o.find? (fun kv => decide (kv.1 = k))).map Prod.snd

/-- `CO2_IMPACT_MAP` of `src/app.py` lines 93–109, as an ordered association
list (Python dicts iterate in declaration order). -/
def CO2_IMPACT_MAP : List (Str × ℚ) :=
  [("food".data, 0.5),
   ("vegetables".data, 0.3),
   ("fruit".data, 0.3),
   ("meat".data, 1.5),
   ("dairy".data, 0.8),
   ("bread".data, 0.4),
   ("plastic".data, 2.0),
   ("paper".data, 0.9),
   ("cardboard".data, 0.7),
   ("glass".data, 0.3),
   ("aluminum".data, 9.0),
   ("steel".data, 1.7),
   ("electronics".data, 5.0),
   ("batteries".data, 3.0),
   ("default".data, 0.5)]

/-- Python's `CO2_IMPACT_MAP.get(k)`. -/
def mapLookup (k : Str) : Option ℚ :=
  (CO2_IMPACT_MAP.find? (fun kv => decide (kv.1 = k))).map Prod.snd

/-- `CO2_IMPACT_MAP['default']`; the key is present, so the `getD 0`
fallback is never exercised. -/
def defaultRate : ℚ := (mapLookup ("default".data)).getD 0

/-- The `for key in CO2_IMPACT_MAP: if key in item_name.lower() or key in
category.lower(): co2_rate = CO2_IMPACT_MAP[key]; break` loop of lines
155–158: the first key (in declaration order) that is a substring of the
lowered item name or of the lowered category overrides `r0`. -/
def scanCoeff (item_lower cat_lower : Str) (r0 : ℚ) : ℚ :=
  match CO2_IMPACT_MAP.find? (fun kv => strIn kv.1 item_lower || strIn kv.1 cat_lower) with
  | some kv => kv.2
  | none => r0

/-- Lines 154–158 as a function of the item name and the (already lowered)
`category` variable of line 152: the direct dictionary lookup
`CO2_IMPACT_MAP.get(category, CO2_IMPACT_MAP['default'])` followed by the
keyword-containment scan. -/
def codeCoeff (item_name category : Str) : ℚ :=
  scanCoeff (pyLower item_name) (pyLower category) ((mapLookup category).getD defaultRate)

/-- The normalized analysis record returned by the core. Field values other
than `co2_saved` are decoded JSON values: the code stores
`ai_data.get('disposal_instruction', ...)` and `ai_data.get('tip', ...)`
verbatim, whatever their JSON type. -/
structure AnalysisResult where
  category : JVal
  disposal_instruction : JVal
  tip : JVal
  co2_saved : ℚ

/-- Keyword group of the food branch of `get_mock_ai_response`. -/
def foodWords : List Str :=
  ["food".data, "meat".data, "vegetable".data, "fruit".data, "bread".data, "dairy".data]

/-- Keyword group of the plastic branch of `get_mock_ai_response`. -/
def plasticWords : List Str := ["plastic".data, "bottle".data, "container".data]

/-- Keyword group of the paper branch of `get_mock_ai_response`. -/
def paperWords : List Str := ["paper".data, "cardboard".data, "box".data]

/-- Keyword group of the battery branch of `get_mock_ai_response`. -/
def batteryWords : List Str := ["battery".data, "electronic".data]

/-- The if/elif chain of `get_mock_ai_response` (lines 170–190): the
(category, disposal instruction, tip) triple chosen for an item name. -/
def mockTriple (item_name : Str) : Str × Str × Str :=
  let item_lower := pyLower item_name
  if anyIn foodWords item_lower then
    ("food".data,
     "Compost ".data ++ item_name ++ " if possible. Otherwise, dispose in food waste bin.".data,
     "Plan meals to reduce ".data ++ item_name ++ " waste.".data)
  else if anyIn plasticWords item_lower then
    ("recyclable".data,
     "Rinse ".data ++ item_name ++ ", remove labels, place in recycling bin.".data,
     "Use reusable alternatives instead of ".data ++ item_name ++ ".".data)
  else if anyIn paperWords item_lower then
    ("recyclable".data,
     "Flatten ".data ++ item_name ++ " and recycle paper components.".data,
     "Go digital to reduce paper waste.".data)
  else if anyIn batteryWords item_lower then
    ("hazardous".data,
     "Take ".data ++ item_name ++ " to hazardous waste collection center.".data,
     "Use rechargeable alternatives.".data)
  else
    ("other".data,
     "Dispose of ".data ++ item_name ++ " in regular waste.".data,
     "Check if it can be reused, donated, or repaired.".data)

/-- `get_mock_ai_response` (lines 169–193): heuristic classification, then
`co2_rate = CO2_IMPACT_MAP.get(category, 0.5)` and
`co2_saved = round(quantity * 0.5 * co2_rate, 2)`. -/
def get_mock_ai_response (item_name : Str) (quantity : ℚ) : AnalysisResult :=
  let t := mockTriple item_name
  let co2_rate := (mapLookup t.1).getD 0.5
  { category := JVal.jstr t.1,
    disposal_instruction := JVal.jstr t.2.1,
    tip := JVal.jstr t.2.2,
    co2_saved := pyRound2 (quantity * 0.5 * co2_rate) }

/-- Multiplying a decoded JSON value by a Python float succeeds exactly for
JSON numbers and booleans (`True`/`False` are the numbers 1/0 in Python);
for strings, nulls, arrays and objects the multiplication raises. -/
def pyNumVal : JVal → Option ℚ
  | JVal.jnum q => some q
  | JVal.jbool b => some (if b then 1 else 0)
  | _ => none

/-- Lines 152–166 of `get_ai_waste_analysis`: field extraction, coefficient
lookup, CO2 computation and result assembly from the decoded reply
`ai_data`. These lines run outside the `try` block, so a raising statement
(`.get` on a non-object, `.lower()` on a non-string category, multiplying a
non-numeric weight) propagates: embedded as `none`. -/
def estimate_from_reply (ai_data : JVal) (item_name : Str) (quantity : ℚ) :
    Option AnalysisResult :=
  match ai_data with
  | JVal.jobj o =>
    match (objGet o ("category".data)).getD (JVal.jstr ("default".data)) with
    | JVal.jstr cs =>
      let category := pyLower cs
      match pyNumVal ((objGet o ("estimated_weight_kg".data)).getD (JVal.jnum 0.5)) with
      | some w =>
        let weight := w * quantity
        let co2_rate := codeCoeff item_name category
        let co2_saved := pyRound2 (weight * co2_rate)
        some { category := (objGet o ("category".data)).getD (JVal.jstr ("other".data)),
               disposal_instruction :=
                 (objGet o ("disposal_instruction".data)).getD
                   (JVal.jstr ("Please recycle responsibly.".data)),
               tip := (objGet o ("tip".data)).getD (JVal.jstr ("Reduce, reuse, recycle.".data)),
               co2_saved := co2_saved }
      | none => none
    | _ => none
  | _ => none

/-- Lines 145–147: if the (stripped) message text starts with a triple
backtick, drop its first and last line (`lines[1:-1]`) and rejoin. -/
def extractContent (s : Str) : Str :=
  if ("```".data) <+: s then pyJoin '\n' (((pySplit '\n' s).drop 1).dropLast) else s

/-- Outcome of the `try` block of lines 140–148: either some exception was
raised inside it (network error, non-2xx status, missing response shape,
JSON parse error) or a decoded JSON value was produced. -/
inductive RemoteOutcome where
  | fetchError : RemoteOutcome
  | fetched : JVal → RemoteOutcome

/-- `get_ai_waste_analysis` (lines 115–166). `api_key` is the environment's
`BYTEZ_API_KEY` (`none` = unset); Python's `if not api_key` also treats the
empty string as missing. On a missing credential or any exception inside
the `try` block the heuristic fallback is returned; otherwise the decoded
reply is estimated, and a raising statement there propagates (`none`).
`user_location` only feeds the prompt text, which has no further effect on
the embedded result. -/
def get_ai_waste_analysis (api_key : Option Str) (outcome : RemoteOutcome)
    (item_name : Str) (quantity : ℚ) (user_location : Str) : Option AnalysisResult :=
  match api_key with
  | none => some (get_mock_ai_response item_name quantity)
  | some k =>
    if k = [] then some (get_mock_ai_response item_name quantity)
    else
      match outcome with
      | RemoteOutcome.fetchError => some (get_mock_ai_response item_name quantity)
      | RemoteOutcome.fetched ai_data => estimate_from_reply ai_data item_name quantity

/-- A reply whose `category` field (when present) is a string and whose
`estimated_weight_kg` field (when present) is numeric, decoded from a JSON
object: exactly the replies on which lines 152–166 cannot raise. -/
def goodReply : JVal → Bool
  | JVal.jobj o =>
    (match objGet o ("category".data) with
     | none => true
     | some (JVal.jstr _) => true
     | some _ => false) &&
    (match objGet o ("estimated_weight_kg".data) with
     | none => true
     | some v => (pyNumVal v).isSome)
  | _ => false

/-- The reply's `category` field, when present, is a non-empty string. -/
def catOk (o : List (Str × JVal)) : Bool :=
  match objGet o ("category".data) with
  | none => true
  | some (JVal.jstr s) => decide (s ≠ [])
  | some _ => false

/-- The reply's `estimated_weight_kg` field, when present, is a
non-negative number (or a boolean, which Python multiplies as 1/0). -/
def weightOk (o : List (Str × JVal)) : Bool :=
  match objGet o ("estimated_weight_kg".data) with
  | none => true
  | some v =>
    match pyNumVal v with
    | some w => decide (0 ≤ w)
    | none => false

/-- First declaration-order matching key wins; the `default` coefficient
when no key matches. Helper for `specLookupCoeff`. -/
def specFirstMatch (item_l cat_l : Str) : List (Str × ℚ) → ℚ
  | [] => defaultRate
  | kv :: rest =>
    if kv.1 <:+: item_l ∨ kv.1 <:+: cat_l then kv.2 else specFirstMatch item_l cat_l rest

/-- Modelled from the spec (§4.1, §4.4): the Impact Table lookup as the spec
describes it — the coefficient of the first key, in table-declaration
order, that occurs as a substring of the lowercased item name or of the
lowercased category, and the `default` coefficient when no key matches.
`category` is the already-lowercased category variable, per §4.4. -/
def specLookupCoeff (item_name category : Str) : ℚ :=
  specFirstMatch (pyLower item_name) (pyLower category) CO2_IMPACT_MAP

/-- The keyword-containment scan alone, with the table default when no key
matches: the lines 155–158 loop started from `CO2_IMPACT_MAP['default']`
instead of from the line 154 direct lookup. -/
def scanOnlyCoeff (item_name category : Str) : ℚ :=
  scanCoeff (pyLower item_name) (pyLower category) defaultRate

/-! ## Helper lemmas -/

lemma strIn_iff {n h : Str} : strIn n h = true ↔ n <:+: h := by
  simp [strIn]

lemma pyRound2_intCast (x : ℚ) (n : ℤ) (h : x * 100 = (n : ℚ)) :
    pyRound2 x = (n : ℚ) / 100 := by
  unfold pyRound2
  rw [h]
  norm_num

lemma pyRound2_nonneg {x : ℚ} (h : 0 ≤ x) : 0 ≤ pyRound2 x := by
  unfold pyRound2
  have hy : (0:ℚ) ≤ x * 100 := by positivity
  have hn : (0:ℤ) ≤ ⌊x * 100⌋ := Int.floor_nonneg.mpr hy
  have hn1 : (0:ℤ) ≤ ⌊x * 100⌋ + 1 := by omega
  dsimp only
  split_ifs
  · exact div_nonneg (by exact_mod_cast hn1) (by norm_num)
  · exact div_nonneg (by exact_mod_cast hn) (by norm_num)
  · exact div_nonneg (by exact_mod_cast hn) (by norm_num)
  · exact div_nonneg (by exact_mod_cast hn1) (by norm_num)

lemma mem_map_keys_lower : ∀ kv ∈ CO2_IMPACT_MAP, pyLower kv.1 = kv.1 := by decide

lemma map_rates_pos : ∀ kv ∈ CO2_IMPACT_MAP, (0:ℚ) < kv.2 := by
  intro kv h
  unfold CO2_IMPACT_MAP at h
  fin_cases h <;> norm_num

lemma defaultRate_eq : defaultRate = 0.5 := rfl

lemma mapLookup_eq_none_of_scan_none (item cat : Str)
    (h : CO2_IMPACT_MAP.find?
        (fun kv => strIn kv.1 (pyLower item) || strIn kv.1 (pyLower cat)) = none) :
    mapLookup cat = none := by
  unfold mapLookup
  rw [List.find?_eq_none] at h
  rw [Option.map_eq_none', List.find?_eq_none]
  intro kv hkv
  simp only [decide_eq_true_eq]
  intro hEq
  apply h kv hkv
  have h2 : pyLower cat = kv.1 := by rw [← hEq]; exact mem_map_keys_lower kv hkv
  have h3 : kv.1 <:+: pyLower cat := h2 ▸ List.infix_refl kv.1
  simp [strIn, h3]

lemma specFirstMatch_eq_find (il cl : Str) (l : List (Str × ℚ)) :
    specFirstMatch il cl l =
      match l.find? (fun kv => strIn kv.1 il || strIn kv.1 cl) with
      | some kv => kv.2
      | none => defaultRate := by
  induction l with
  | nil => rfl
  | cons kv rest ih =>
    by_cases h : kv.1 <:+: il ∨ kv.1 <:+: cl
    · have hb : (strIn kv.1 il || strIn kv.1 cl) = true := by
        rcases h with h | h <;> simp [strIn, h]
      simp only [specFirstMatch, if_pos h, List.find?, hb]
    · have hb : (strIn kv.1 il || strIn kv.1 cl) = false := by
        push_neg at h
        simp [strIn, h.1, h.2]
      simp only [specFirstMatch, if_neg h, List.find?, hb]
      exact ih

lemma codeCoeff_eq_spec (item cat : Str) : codeCoeff item cat = specLookupCoeff item cat := by
  unfold codeCoeff specLookupCoeff scanCoeff
  rw [specFirstMatch_eq_find]
  rcases hf : CO2_IMPACT_MAP.find?
      (fun kv => strIn kv.1 (pyLower item) || strIn kv.1 (pyLower cat)) with _ | kv
  · simp only [hf]
    rw [mapLookup_eq_none_of_scan_none item cat hf]
    rfl
  · simp only [hf]

lemma codeCoeff_pos (item cat : Str) : 0 < codeCoeff item cat := by
  unfold codeCoeff scanCoeff
  rcases hf : CO2_IMPACT_MAP.find?
      (fun kv => strIn kv.1 (pyLower item) || strIn kv.1 (pyLower cat)) with _ | kv
  · simp only [hf]
    rcases hm : mapLookup cat with _ | v
    · norm_num [Option.getD_none, defaultRate_eq]
    · simp only [Option.getD_some]
      unfold mapLookup at hm
      rcases Option.map_eq_some'.mp hm with ⟨kv2, hfind, hsnd⟩
      have := map_rates_pos kv2 (List.mem_of_find?_eq_some hfind)
      simpa [hsnd] using this
  · simp only [hf]
    exact map_rates_pos kv (List.mem_of_find?_eq_some hf)

lemma mock_category_cases (item : Str) :
    (mockTriple item).1 = "food".data ∨ (mockTriple item).1 = "recyclable".data ∨
    (mockTriple item).1 = "hazardous".data ∨ (mockTriple item).1 = "other".data := by
  unfold mockTriple
  dsimp only
  split_ifs <;> simp

lemma mock_rate (item : Str) : ((mapLookup (mockTriple item).1).getD 0.5) = 0.5 := by
  rcases mock_category_cases item with h | h | h | h <;> rw [h] <;> rfl

lemma mock_co2 (item : Str) (q : ℚ) :
    (get_mock_ai_response item q).co2_saved = pyRound2 (q * 0.5 * 0.5) := by
  unfold get_mock_ai_response
  dsimp only
  rw [mock_rate]

lemma mockTriple_ins_infix (item : Str) : item <:+: (mockTriple item).2.1 := by
  unfold mockTriple
  dsimp only
  split_ifs <;> exact ⟨_, _, rfl⟩

lemma mockTriple_tip_food (item : Str) (h : anyIn foodWords (pyLower item) = true) :
    item <:+: (mockTriple item).2.2 := by
  unfold mockTriple
  dsimp only
  simp only [h, if_true]
  exact ⟨_, _, rfl⟩

lemma mockTriple_tip_plastic (item : Str) (h1 : anyIn foodWords (pyLower item) = false)
    (h2 : anyIn plasticWords (pyLower item) = true) :
    item <:+: (mockTriple item).2.2 := by
  unfold mockTriple
  dsimp only
  simp only [h1, h2, if_true, Bool.false_eq_true, if_false]
  exact ⟨_, _, rfl⟩

/-! ## Claim theorems -/

/-- C4: the coefficient combination the CO2 estimator runs (direct lookup of
line 154 followed by the scan of lines 155–158) equals the spec's described
lookup — first key in table-declaration order occurring as a substring of
the lowercased item name or category, else the default; in particular the
item "old newspaper" resolves via the "paper" keyword to 0.9, not the
default. -/
theorem C4_impact_lookup_first_match :
    (∀ item_name category, codeCoeff item_name category = specLookupCoeff item_name category)
    ∧ codeCoeff ("old newspaper".data) ("other".data) = 0.9
    ∧ (0.9 : ℚ) ≠ defaultRate := by
  refine ⟨codeCoeff_eq_spec, rfl, ?_⟩
  rw [defaultRate_eq]
  norm_num

/-- C10: the line 154 direct category-keyed lookup is redundant — for every
item name and category string, the direct-lookup-then-scan combination
equals the scan alone with the table default when no key matches. -/
theorem C10_direct_lookup_redundant :
    ∀ item_name category, codeCoeff item_name category = scanOnlyCoeff item_name category := by
  intro item cat
  unfold codeCoeff scanOnlyCoeff scanCoeff
  rcases hf : CO2_IMPACT_MAP.find?
      (fun kv => strIn kv.1 (pyLower item) || strIn kv.1 (pyLower cat)) with _ | kv
  · simp only [hf]
    rw [mapLookup_eq_none_of_scan_none item cat hf]
    rfl
  · simp only [hf]

/-- C9: on the heuristic fallback path, co2_saved is independent of the
classified category: it always equals round(quantity × 0.5 × 0.5, 2) =
round(quantity × 0.25, 2), because the "food" coefficient equals 0.5 and
"recyclable", "hazardous", "other" are not keys of the impact table. -/
theorem C9_mock_co2_category_independent :
    ∀ item_name q,
      (get_mock_ai_response item_name q).co2_saved = pyRound2 (q * 0.5 * 0.5)
      ∧ pyRound2 (q * 0.5 * 0.5) = pyRound2 (q * 0.25)
      ∧ (mapLookup ("food".data)).getD 0.5 = 0.5
      ∧ mapLookup ("recyclable".data) = none
      ∧ mapLookup ("hazardous".data) = none
      ∧ mapLookup ("other".data) = none := by
  intro item q
  refine ⟨mock_co2 item q, ?_, rfl, rfl, rfl, rfl⟩
  have h : q * (0.5:ℚ) * 0.5 = q * 0.25 := by ring
  rw [h]

/-- C8: with no API credential configured the network call is skipped and the
analysis is deterministic: the result does not depend on the remote world at
all and equals the heuristic classifier's output for the same inputs. -/
theorem C8_no_credential_deterministic :
    ∀ outcome1 outcome2 item_name q loc,
      get_ai_waste_analysis none outcome1 item_name q loc =
        some (get_mock_ai_response item_name q)
      ∧ get_ai_waste_analysis none outcome1 item_name q loc =
          get_ai_waste_analysis none outcome2 item_name q loc := by
  intro _ _ _ _ _
  exact ⟨rfl, rfl⟩

/-- C3 (amended): on the fallback path, item_name = "banana peel" with
quantity = 2 yields category "other" — none of the heuristic food keywords
occurs in "banana peel" — and co2_saved = round(2 × 0.5 × 0.5, 2) = 0.5
(the coefficient is the `.get` default 0.5, "other" not being a table key). -/
theorem C3_banana_peel_fallback :
    ∀ outcome loc, get_ai_waste_analysis none outcome ("banana peel".data) 2 loc =
      some { category := JVal.jstr ("other".data),
             disposal_instruction := JVal.jstr ("Dispose of banana peel in regular waste.".data),
             tip := JVal.jstr ("Check if it can be reused, donated, or repaired.".data),
             co2_saved := 0.5 } := by
  intro outcome loc
  have hco : pyRound2 (2 * 0.5 * ((mapLookup (mockTriple ("banana peel".data)).1).getD 0.5))
      = 0.5 := by
    rw [mock_rate]
    rw [pyRound2_intCast _ 50 (by norm_num)]
    norm_num
  show some (get_mock_ai_response _ _) = _
  unfold get_mock_ai_response
  dsimp only
  rw [hco]
  rfl

/-- C3 counterexample: at item_name = "banana peel", quantity = 2, on the
fallback path the returned category is "other", not "food" as the claim
states. -/
theorem C3_counterexample :
    (get_ai_waste_analysis none RemoteOutcome.fetchError ("banana peel".data) 2
        ("general".data)).map AnalysisResult.category = some (JVal.jstr ("other".data))
      ∧ JVal.jstr ("other".data) ≠ JVal.jstr ("food".data) := by
  refine ⟨rfl, ?_⟩
  intro h
  injection h with h2
  exact absurd h2 (by decide)

/-- C5 (amended): every branch of the heuristic classifier produces a
disposal instruction containing the original item name verbatim; the tip
contains it only in the food branch and in the plastic branch (the paper,
battery and catch-all branches use fixed tips). -/
theorem C5_amended_interpolation :
    ∀ item_name q,
      (∃ ins, (get_mock_ai_response item_name q).disposal_instruction = JVal.jstr ins ∧
        item_name <:+: ins)
      ∧ (anyIn foodWords (pyLower item_name) = true →
          ∃ t, (get_mock_ai_response item_name q).tip = JVal.jstr t ∧ item_name <:+: t)
      ∧ (anyIn foodWords (pyLower item_name) = false →
          anyIn plasticWords (pyLower item_name) = true →
          ∃ t, (get_mock_ai_response item_name q).tip = JVal.jstr t ∧ item_name <:+: t) := by
  intro item q
  refine ⟨⟨(mockTriple item).2.1, rfl, mockTriple_ins_infix item⟩, ?_, ?_⟩
  · intro h1
    exact ⟨(mockTriple item).2.2, rfl, mockTriple_tip_food item h1⟩
  · intro h1 h2
    exact ⟨(mockTriple item).2.2, rfl, mockTriple_tip_plastic item h1 h2⟩

/-- C5 witness: the food and plastic branches do interpolate the item name
into the tip, exhibited at the items "food" and "bottle". -/
theorem C5_amended_interpolation_witness :
    (∃ t, (get_mock_ai_response ("food".data) 1).tip = JVal.jstr t ∧ ("food".data) <:+: t)
    ∧ (∃ t, (get_mock_ai_response ("bottle".data) 1).tip = JVal.jstr t ∧
        ("bottle".data) <:+: t) :=
  ⟨(C5_amended_interpolation ("food".data) 1).2.1 rfl,
   (C5_amended_interpolation ("bottle".data) 1).2.2 rfl rfl⟩

/-- C5 counterexample: at item "box" (paper branch) the tip is the fixed
string "Go digital to reduce paper waste.", which does not contain the item
name. -/
theorem C5_counterexample :
    (get_mock_ai_response ("box".data) 1).tip =
      JVal.jstr ("Go digital to reduce paper waste.".data)
    ∧ ¬ (("box".data) <:+: ("Go digital to reduce paper waste.".data)) :=
  ⟨rfl, by decide⟩

/-! ## Split/join lemmas for the fenced-content stripping -/

lemma pySplit_cons (sep c : Char) (cs : Str) :
    pySplit sep (c :: cs) =
      if c = sep then [] :: pySplit sep cs
      else
        match pySplit sep cs with
        | [] => [[c]]
        | l :: ls => (c :: l) :: ls := rfl

lemma pySplit_ne_nil (sep : Char) (s : Str) : pySplit sep s ≠ [] := by
  cases s with
  | nil => simp [pySplit]
  | cons c cs =>
    unfold pySplit
    split_ifs
    · simp
    · rcases h : pySplit sep cs with _ | ⟨l, ls⟩ <;> simp

lemma pySplit_append (sep : Char) (x y : Str) :
    pySplit sep (x ++ sep :: y) = pySplit sep x ++ pySplit sep y := by
  induction x with
  | nil => simp [pySplit]
  | cons c cs ih =>
    rw [List.cons_append, pySplit_cons, pySplit_cons]
    by_cases h : c = sep
    · rw [if_pos h, if_pos h, ih]
      rfl
    · rw [if_neg h, if_neg h, ih]
      rcases hcs : pySplit sep cs with _ | ⟨l, ls⟩
      · exact absurd hcs (pySplit_ne_nil sep cs)
      · simp only [hcs, List.cons_append]

lemma pySplit_no_sep (sep : Char) (x : Str) (h : sep ∉ x) : pySplit sep x = [x] := by
  induction x with
  | nil => rfl
  | cons c cs ih =>
    simp only [List.mem_cons, not_or] at h
    obtain ⟨hc, hcs⟩ := h
    unfold pySplit
    rw [if_neg (fun hh => hc hh.symm), ih hcs]

lemma pyJoin_pySplit (sep : Char) (s : Str) : pyJoin sep (pySplit sep s) = s := by
  induction s with
  | nil => rfl
  | cons c cs ih =>
    unfold pySplit
    by_cases h : c = sep
    · rw [if_pos h]
      rcases hcs : pySplit sep cs with _ | ⟨l, ls⟩
      · exact absurd hcs (pySplit_ne_nil sep cs)
      · rw [hcs] at ih
        subst h
        simp only [pyJoin]
        rw [ih]
        rfl
    · rw [if_neg h]
      rcases hcs : pySplit sep cs with _ | ⟨l, ls⟩
      · exact absurd hcs (pySplit_ne_nil sep cs)
      · rw [hcs] at ih
        cases ls with
        | nil =>
          simp only [pyJoin] at ih ⊢
          rw [ih]
        | cons l2 ls2 =>
          simp only [pyJoin] at ih ⊢
          rw [List.cons_append, ih]

/-- C7: a reply text wrapped in leading and trailing code-fence lines is
stripped to exactly the interior body, and an unfenced body passes through
unchanged — so parsing after extraction behaves as if the JSON body had
arrived unfenced. -/
theorem C7_fence_stripping :
    ∀ fence1 fence2 body, '\n' ∉ fence1 → '\n' ∉ fence2 →
      ("```".data) <+: fence1 → ¬ (("```".data) <+: body) →
      extractContent (fence1 ++ '\n' :: (body ++ '\n' :: fence2)) = body
      ∧ extractContent body = body := by
  intro f g body hf hg hpre hbody
  constructor
  · unfold extractContent
    rw [if_pos (hpre.trans (List.prefix_append f _))]
    rw [pySplit_append, pySplit_no_sep _ f hf, pySplit_append, pySplit_no_sep _ g hg]
    simp only [List.singleton_append, List.drop_succ_cons, List.drop_zero]
    rw [List.dropLast_concat]
    exact pyJoin_pySplit _ body
  · unfold extractContent
    rw [if_neg hbody]

/-- C7 witness: the fence-stripping equations at the concrete fenced text
made of a "```json" opening line, the body "[1, 2]", and a "```" closing
line. -/
theorem C7_fence_stripping_witness :
    extractContent (("```json".data) ++ '\n' :: (("[1, 2]".data) ++ '\n' :: ("```".data)))
      = "[1, 2]".data
    ∧ extractContent ("[1, 2]".data) = "[1, 2]".data :=
  C7_fence_stripping ("```json".data) ("```".data) ("[1, 2]".data)
    (by decide) (by decide) (by decide) (by decide)

/-! ## Remote estimator lemmas -/

lemma estimate_eq (o : List (Str × JVal)) (item : Str) (q : ℚ) (cs : Str) (w : ℚ)
    (hc : (objGet o ("category".data)).getD (JVal.jstr ("default".data)) = JVal.jstr cs)
    (hw : pyNumVal ((objGet o ("estimated_weight_kg".data)).getD (JVal.jnum 0.5)) = some w) :
    estimate_from_reply (JVal.jobj o) item q =
      some { category := (objGet o ("category".data)).getD (JVal.jstr ("other".data)),
             disposal_instruction := (objGet o ("disposal_instruction".data)).getD
               (JVal.jstr ("Please recycle responsibly.".data)),
             tip := (objGet o ("tip".data)).getD (JVal.jstr ("Reduce, reuse, recycle.".data)),
             co2_saved := pyRound2 ((w * q) * codeCoeff item (pyLower cs)) } := by
  unfold estimate_from_reply
  dsimp only
  rw [hc]
  dsimp only
  rw [hw]

lemma good_category (o : List (Str × JVal))
    (h1 : (match objGet o ("category".data) with
           | none => true
           | some (JVal.jstr _) => true
           | some _ => false) = true) :
    ∃ cs, (objGet o ("category".data)).getD (JVal.jstr ("default".data)) = JVal.jstr cs := by
  rcases hc : objGet o ("category".data) with _ | v
  · exact ⟨"default".data, rfl⟩
  · rcases v with s | qq | b | _ | a | o2
    · exact ⟨s, rfl⟩
    all_goals rw [hc] at h1
    all_goals simp at h1

lemma good_weight (o : List (Str × JVal))
    (h2 : (match objGet o ("estimated_weight_kg".data) with
           | none => true
           | some v => (pyNumVal v).isSome) = true) :
    ∃ w, pyNumVal ((objGet o ("estimated_weight_kg".data)).getD (JVal.jnum 0.5)) = some w := by
  rcases hw : objGet o ("estimated_weight_kg".data) with _ | v
  · exact ⟨0.5, rfl⟩
  · rw [hw] at h2
    have h2' : (pyNumVal v).isSome = true := h2
    rcases hpv : pyNumVal v with _ | w
    · rw [hpv] at h2'
      simp at h2'
    · exact ⟨w, hpv⟩

lemma estimate_isSome_of_good (o : List (Str × JVal)) (item : Str) (q : ℚ)
    (h : goodReply (JVal.jobj o) = true) :
    (estimate_from_reply (JVal.jobj o) item q).isSome = true := by
  unfold goodReply at h
  rw [Bool.and_eq_true] at h
  obtain ⟨cs, hcs⟩ := good_category o h.1
  obtain ⟨w, hw⟩ := good_weight o h.2
  rw [estimate_eq o item q cs w hcs hw]
  rfl

/-- C1 (amended): the analysis entry point never raises provided every
fetched reply is well-typed — a JSON object whose `category` field (when
present) is a string and whose `estimated_weight_kg` field (when present)
is numeric. Missing fields, missing credential, and any failure inside the
`try` block are always handled; but lines 152–153 run outside the `try`
block, so a wrong-typed field raises (see the counterexample). -/
theorem C1_amended_totality :
    ∀ api_key outcome item_name q loc,
      (∀ d, outcome = RemoteOutcome.fetched d → goodReply d = true) →
      (get_ai_waste_analysis api_key outcome item_name q loc).isSome = true := by
  intro key outcome item q loc h
  rcases key with _ | k
  · rfl
  · unfold get_ai_waste_analysis
    dsimp only
    by_cases hk : k = []
    · rw [if_pos hk]
      rfl
    · rw [if_neg hk]
      rcases outcome with _ | d
      · rfl
      · have hd := h d rfl
        rcases d with s | qq | b | _ | a | o
        · simp [goodReply] at hd
        · simp [goodReply] at hd
        · simp [goodReply] at hd
        · simp [goodReply] at hd
        · simp [goodReply] at hd
        · exact estimate_isSome_of_good o item q hd

/-- C1 witness: a credentialed call with a well-typed fetched reply returns
a result. -/
theorem C1_amended_totality_witness :
    (get_ai_waste_analysis (some ("k".data))
      (RemoteOutcome.fetched (JVal.jobj [(("category".data), JVal.jstr ("Plastic".data))]))
      ("x".data) 1 ("general".data)).isSome = true :=
  C1_amended_totality (some ("k".data)) _ ("x".data) 1 ("general".data)
    (fun d hd => by cases hd; rfl)

/-- C1 counterexample: a reply whose `category` field is a number makes
line 152's `.lower()` raise outside the `try` block, so the call does not
return an AnalysisResult (the claim's "never raises" fails). -/
theorem C1_counterexample :
    get_ai_waste_analysis (some ("k".data))
      (RemoteOutcome.fetched (JVal.jobj [(("category".data), JVal.jnum 3)]))
      ("x".data) 1 ("general".data) = none := rfl

lemma mock_result_good (item : Str) (q : ℚ) (hq : 0 ≤ q) :
    0 ≤ (get_mock_ai_response item q).co2_saved ∧
    ∃ s, (get_mock_ai_response item q).category = JVal.jstr s ∧ s ≠ [] := by
  constructor
  · rw [mock_co2]
    exact pyRound2_nonneg (mul_nonneg (mul_nonneg hq (by norm_num)) (by norm_num))
  · refine ⟨(mockTriple item).1, rfl, ?_⟩
    rcases mock_category_cases item with h | h | h | h <;> rw [h] <;> decide

lemma cat_extract (o : List (Str × JVal)) (hcat : catOk o = true) :
    ∃ cs s, (objGet o ("category".data)).getD (JVal.jstr ("default".data)) = JVal.jstr cs
      ∧ (objGet o ("category".data)).getD (JVal.jstr ("other".data)) = JVal.jstr s
      ∧ s ≠ [] := by
  unfold catOk at hcat
  rcases hc : objGet o ("category".data) with _ | v
  · rw [hc] at hcat
    exact ⟨"default".data, "other".data, rfl, rfl, by decide⟩
  · rw [hc] at hcat
    rcases v with s | qq | b | _ | a | o2
    · exact ⟨s, s, rfl, rfl, by simpa using hcat⟩
    all_goals simp at hcat

lemma weight_extract (o : List (Str × JVal)) (hwt : weightOk o = true) :
    ∃ w, pyNumVal ((objGet o ("estimated_weight_kg".data)).getD (JVal.jnum 0.5)) = some w
      ∧ 0 ≤ w := by
  unfold weightOk at hwt
  rcases hw : objGet o ("estimated_weight_kg".data) with _ | v
  · exact ⟨0.5, rfl, by norm_num⟩
  · rw [hw] at hwt
    have hwt' : (match pyNumVal v with
                 | some w => decide (0 ≤ w)
                 | none => false) = true := hwt
    rcases hpv : pyNumVal v with _ | w
    · rw [hpv] at hwt'
      simp at hwt'
    · rw [hpv] at hwt'
      exact ⟨w, hpv, by simpa using hwt'⟩

lemma estimate_result_good (o : List (Str × JVal)) (item : Str) (q : ℚ) (r : AnalysisResult)
    (hq : 0 ≤ q) (hcat : catOk o = true) (hwt : weightOk o = true)
    (he : estimate_from_reply (JVal.jobj o) item q = some r) :
    0 ≤ r.co2_saved ∧ ∃ s, r.category = JVal.jstr s ∧ s ≠ [] := by
  obtain ⟨cs, s, hcd, hco, hsne⟩ := cat_extract o hcat
  obtain ⟨w, hw, hwn⟩ := weight_extract o hwt
  rw [estimate_eq o item q cs w hcd hw] at he
  injection he with he2
  subst he2
  constructor
  · exact pyRound2_nonneg (mul_nonneg (mul_nonneg hwn hq) (codeCoeff_pos _ _).le)
  · exact ⟨s, hco, hsne⟩

/-- C2 (amended): for q > 0 and every reply whose `category` field (when
present) is a non-empty string and whose `estimated_weight_kg` field (when
present) is non-negative, every AnalysisResult the facade returns has
co2_saved ≥ 0 and a non-empty category string; on the fallback path this
holds for every reply. A present-but-empty category or a negative supplied
weight violates the claim as stated (see the counterexample). -/
theorem C2_amended_nonneg_nonempty :
    ∀ api_key outcome item_name q loc r,
      0 < q →
      (∀ o, outcome = RemoteOutcome.fetched (JVal.jobj o) →
        catOk o = true ∧ weightOk o = true) →
      get_ai_waste_analysis api_key outcome item_name q loc = some r →
      0 ≤ r.co2_saved ∧ ∃ s, r.category = JVal.jstr s ∧ s ≠ [] := by
  intro key outcome item q loc r hq hgood he
  rcases key with _ | k
  · have hrw : get_ai_waste_analysis none outcome item q loc =
        some (get_mock_ai_response item q) := rfl
    rw [hrw] at he
    injection he with he2
    subst he2
    exact mock_result_good item q hq.le
  · by_cases hk : k = []
    · subst hk
      have hrw : get_ai_waste_analysis (some []) outcome item q loc =
          some (get_mock_ai_response item q) := rfl
      rw [hrw] at he
      injection he with he2
      subst he2
      exact mock_result_good item q hq.le
    · rcases outcome with _ | d
      · have hrw : get_ai_waste_analysis (some k) RemoteOutcome.fetchError item q loc =
            some (get_mock_ai_response item q) := by
          unfold get_ai_waste_analysis
          dsimp only
          rw [if_neg hk]
        rw [hrw] at he
        injection he with he2
        subst he2
        exact mock_result_good item q hq.le
      · have hrw : get_ai_waste_analysis (some k) (RemoteOutcome.fetched d) item q loc =
            estimate_from_reply d item q := by
          unfold get_ai_waste_analysis
          dsimp only
          rw [if_neg hk]
        rw [hrw] at he
        rcases d with s | qq | b | _ | a | o
        · simp [estimate_from_reply] at he
        · simp [estimate_from_reply] at he
        · simp [estimate_from_reply] at he
        · simp [estimate_from_reply] at he
        · simp [estimate_from_reply] at he
        · exact estimate_result_good o item q r hq.le
            (hgood o rfl).1 (hgood o rfl).2 he

/-- C2 witness: the guarantee exhibited on the remote path for a
well-behaved reply (category "Plastic", weight 2) at quantity 3. -/
theorem C2_amended_nonneg_nonempty_witness :
    0 ≤ (AnalysisResult.mk (JVal.jstr ("Plastic".data))
        (JVal.jstr ("Please recycle responsibly.".data))
        (JVal.jstr ("Reduce, reuse, recycle.".data))
        (pyRound2 (2 * 3 * codeCoeff ("x".data) (pyLower ("Plastic".data))))).co2_saved ∧
    ∃ s, (AnalysisResult.mk (JVal.jstr ("Plastic".data))
        (JVal.jstr ("Please recycle responsibly.".data))
        (JVal.jstr ("Reduce, reuse, recycle.".data))
        (pyRound2 (2 * 3 * codeCoeff ("x".data) (pyLower ("Plastic".data))))).category
      = JVal.jstr s ∧ s ≠ [] :=
  C2_amended_nonneg_nonempty (some ("k".data))
    (RemoteOutcome.fetched (JVal.jobj
      [(("category".data), JVal.jstr ("Plastic".data)),
       (("estimated_weight_kg".data), JVal.jnum 2)]))
    ("x".data) 3 ("general".data) _
    (by decide) (fun o ho => by cases ho; exact ⟨rfl, rfl⟩) rfl

/-- C2 counterexample: a successfully parsed reply with an empty `category`
string and `estimated_weight_kg = -1` makes the facade return a result with
a negative co2_saved and an empty category string. -/
theorem C2_counterexample :
    (get_ai_waste_analysis (some ("k".data))
        (RemoteOutcome.fetched (JVal.jobj
          [(("category".data), JVal.jstr []),
           (("estimated_weight_kg".data), JVal.jnum (-1))]))
        ("x".data) 1 ("general".data)).map AnalysisResult.co2_saved
      = some (pyRound2 ((-1) * 1 * codeCoeff ("x".data) (pyLower ([] : Str))))
    ∧ pyRound2 ((-1) * 1 * codeCoeff ("x".data) (pyLower ([] : Str))) < 0
    ∧ (get_ai_waste_analysis (some ("k".data))
        (RemoteOutcome.fetched (JVal.jobj
          [(("category".data), JVal.jstr []),
           (("estimated_weight_kg".data), JVal.jnum (-1))]))
        ("x".data) 1 ("general".data)).map AnalysisResult.category
      = some (JVal.jstr []) := by
  refine ⟨rfl, ?_, rfl⟩
  have hc : codeCoeff ("x".data) (pyLower ([] : Str)) = 0.5 := rfl
  rw [hc]
  rw [pyRound2_intCast _ (-50) (by norm_num)]
  norm_num

/-- C6: on the remote-success path, co2_saved equals
round(((estimated_weight_kg or 0.5) × quantity) × coefficient, 2) with the
coefficient given by the keyword lookup on the item name and the lowercased
reply category; in particular the reply {category "Plastic",
estimated_weight_kg 0.2} at quantity 3 yields co2_saved = 1.2 via the
"plastic" coefficient 2.0. -/
theorem C6_remote_weight_and_co2 :
    (∀ k o item_name q w cs loc, k ≠ [] →
      (objGet o ("category".data)).getD (JVal.jstr ("default".data)) = JVal.jstr cs →
      pyNumVal ((objGet o ("estimated_weight_kg".data)).getD (JVal.jnum 0.5)) = some w →
      ∃ r, get_ai_waste_analysis (some k) (RemoteOutcome.fetched (JVal.jobj o))
          item_name q loc = some r
        ∧ r.co2_saved = pyRound2 ((w * q) * specLookupCoeff item_name (pyLower cs)))
    ∧ (∃ r, get_ai_waste_analysis (some ("k".data))
          (RemoteOutcome.fetched (JVal.jobj
            [(("category".data), JVal.jstr ("Plastic".data)),
             (("estimated_weight_kg".data), JVal.jnum 0.2)]))
          ("item".data) 3 ("general".data) = some r
        ∧ r.co2_saved = 1.2
        ∧ codeCoeff ("item".data) (pyLower ("Plastic".data)) = 2.0) := by
  constructor
  · intro k o item q w cs loc hk hc hw
    have hrw : get_ai_waste_analysis (some k) (RemoteOutcome.fetched (JVal.jobj o))
        item q loc = estimate_from_reply (JVal.jobj o) item q := by
      unfold get_ai_waste_analysis
      dsimp only
      rw [if_neg hk]
    rw [hrw, estimate_eq o item q cs w hc hw]
    refine ⟨_, rfl, ?_⟩
    dsimp only
    rw [codeCoeff_eq_spec]
  · refine ⟨AnalysisResult.mk (JVal.jstr ("Plastic".data))
      (JVal.jstr ("Please recycle responsibly.".data))
      (JVal.jstr ("Reduce, reuse, recycle.".data))
      (pyRound2 (0.2 * 3 * codeCoeff ("item".data) (pyLower ("Plastic".data)))),
      rfl, ?_, rfl⟩
    have hc2 : codeCoeff ("item".data) (pyLower ("Plastic".data)) = 2.0 := rfl
    show pyRound2 (0.2 * 3 * codeCoeff ("item".data) (pyLower ("Plastic".data))) = 1.2
    rw [hc2]
    rw [pyRound2_intCast _ 120 (by norm_num)]
    norm_num

/-- C6 witness: the general remote-path co2 formula applied at the concrete
plastic reply. -/
theorem C6_remote_weight_and_co2_witness :
    ∃ r, get_ai_waste_analysis (some ("k".data))
        (RemoteOutcome.fetched (JVal.jobj
          [(("category".data), JVal.jstr ("Plastic".data)),
           (("estimated_weight_kg".data), JVal.jnum 0.2)]))
        ("item".data) 3 ("general".data) = some r
      ∧ r.co2_saved =
          pyRound2 ((0.2 * 3) * specLookupCoeff ("item".data) (pyLower ("Plastic".data))) :=
  C6_remote_weight_and_co2.1 ("k".data) _ ("item".data) 3 0.2 ("Plastic".data)
    ("general".data) (by decide) rfl rfl
